import Mathlib

/-!
Verification of the TIPSY AF customer-service backend core
(`src/server.js`): identity resolution, thread routing, and customer
merge. JavaScript strings are modelled as Lean `String` over their
character lists (all relevant data is ASCII), JSON `null` as `Option`,
numeric columns as `Nat`, timestamps as milliseconds (`Nat`), and the
Supabase tables as in-memory lists inside a `Store` record. Fallible
store calls are modelled with `Except`, with explicit flags standing
for a call failing. The floating-point scores of the fuzzy matcher are
modelled as exact rationals; the constants involved (1, 0.8, 0.7) are
representable such that no comparison in any theorem below sits on a
rounding boundary.
-/

namespace TipsyAF

/-! ### JavaScript string primitives -/

/-- `s.toLowerCase()` restricted to ASCII, which covers all data in scope. -/
def jsToLower (s : String) : String := String.mk (s.data.map Char.toLower)

/-- `s.trim()`. -/
def jsTrim (s : String) : String :=
  String.mk (((s.data.dropWhile Char.isWhitespace).reverse.dropWhile Char.isWhitespace).reverse)

/-- `s.replace(/\D/g, '')`: keep only digit characters. -/
def digitsOf (s : String) : List Char := s.data.filter Char.isDigit

/-- `l.slice(-n)` on a character list: the last `n` characters (the whole
list when it is shorter). -/
def lastN (n : Nat) (l : List Char) : List Char := l.drop (l.length - n)

/-- JavaScript truthiness of a nullable string: `null`, `undefined` and
`""` are falsy. -/
def optTruthy : Option String → Bool
  | none => false
  | some s => !(s == "")

/-- Whether `sub` occurs at the head of `l`. -/
def headMatch : List Char → List Char → Bool
  | [], _ => true
  | _ :: _, [] => false
  | a :: as, b :: bs => a == b && headMatch as bs

/-- Whether `sub` occurs anywhere in `l` (substring search). -/
def subSearch (sub : List Char) : List Char → Bool
  | [] => sub.isEmpty
  | b :: bs => headMatch sub (b :: bs) || subSearch sub bs

/-- `s.includes(sub)`. -/
def jsIncludes (s sub : String) : Bool := subSearch sub.data s.data

/-- `[...new Set(l)]`: deduplicate keeping the first occurrence of each
element, preserving insertion order.  `seen` accumulates the keys already
emitted. -/
def jsSetAux (seen : List String) : List String → List String
  | [] => []
  | x :: xs => if x ∈ seen then jsSetAux seen xs else x :: jsSetAux (seen ++ [x]) xs

/-- `[...new Set(l)]`. -/
def jsSetDedup (l : List String) : List String := jsSetAux [] l

/-- Collapse runs of spaces (`replace(/\s+/g, ' ')` after all non-space
whitespace has been removed); `prevSpace` records whether the previous
kept character was a space. -/
def collapseSpacesAux : List Char → Bool → List Char
  | [], _ => []
  | c :: rest, prevSpace =>
    if c == ' ' then
      if prevSpace then collapseSpacesAux rest true
      else ' ' :: collapseSpacesAux rest true
    else c :: collapseSpacesAux rest false

/-- JavaScript `split(' ')` semantics on a character list: split at every
single space, keeping empty fragments; the empty list yields `[[]]`. -/
def splitSpace (l : List Char) : List (List Char) :=
  l.foldr (fun c acc =>
    if c == ' ' then [] :: acc
    else match acc with
      | [] => [[c]]
      | w :: ws => (c :: w) :: ws) [[]]

/-! ### Fuzzy name matching (`normalizeName` / `nameSimilarity`,
src/server.js lines 117-144) -/

/-- `normalizeName`: lowercase, trim, strip every character other than
`a`-`z` and space, collapse whitespace runs. -/
def normalizeName (name : String) : String :=
  let lowered := jsToLower name
  let trimmed := jsTrim lowered
  let letters := trimmed.data.filter (fun c => c == ' ' || decide ('a' ≤ c ∧ c ≤ 'z'))
  String.mk (collapseSpacesAux letters false)

/-- Number of aligned positions (up to the shorter length) at which the
two token character lists differ. -/
def hamDiff (shorter longer : List Char) : Nat :=
  ((shorter.zip longer).filter (fun pr => !(pr.1 == pr.2))).length

/-- The amount the inner loop of `nameSimilarity` adds to `matches` for
one token pair: 1 for exact equality (length > 1), 0.8 for tokens both
longer than 3 characters whose lengths differ by at most 1 and whose
aligned characters differ in at most one position, else 0. -/
def pairAward (pa pb : List Char) : ℚ :=
  if pa = pb ∧ 1 < pa.length then 1
  else if 3 < pa.length ∧ 3 < pb.length ∧
          pa.length ≤ pb.length + 1 ∧ pb.length ≤ pa.length + 1 then
    let shorter := if pa.length ≤ pb.length then pa else pb
    let longer := if pb.length < pa.length then pa else pb
    if hamDiff shorter longer ≤ 1 then (4 : ℚ) / 5 else 0
  else 0

/-- The double loop of `nameSimilarity`: sum of `pairAward` over all
token pairs, divided by the larger token count. -/
def scoreParts (partsA partsB : List (List Char)) : ℚ :=
  let matchScore : ℚ := partsA.foldl (fun acc pa =>
    partsB.foldl (fun acc2 pb => acc2 + pairAward pa pb) acc) (0 : ℚ)
  let maxParts := max partsA.length partsB.length
  if 0 < maxParts then matchScore / (maxParts : ℚ) else 0

/-- `nameSimilarity` (src/server.js lines 121-144). -/
def nameSimilarity (a b : String) : ℚ :=
  if normalizeName a == normalizeName b then 1
  else scoreParts (splitSpace (normalizeName a).data) (splitSpace (normalizeName b).data)

theorem nameSimilarity_john_jon : nameSimilarity "John Smith" "Jon Smith" = 1 / 2 := by
  have hA : splitSpace (normalizeName "John Smith").data
      = [['j', 'o', 'h', 'n'], ['s', 'm', 'i', 't', 'h']] := by decide
  have hB : splitSpace (normalizeName "Jon Smith").data
      = [['j', 'o', 'n'], ['s', 'm', 'i', 't', 'h']] := by decide
  have hne : (normalizeName "John Smith" == normalizeName "Jon Smith") = false := by decide
  have e11 : pairAward ['j', 'o', 'h', 'n'] ['j', 'o', 'n'] = 0 := by
    rw [pairAward, if_neg (by decide), if_neg (by decide)]
  have e12 : pairAward ['j', 'o', 'h', 'n'] ['s', 'm', 'i', 't', 'h'] = 0 := by
    rw [pairAward, if_neg (by decide), if_pos (by decide), if_neg (by decide)]
  have e21 : pairAward ['s', 'm', 'i', 't', 'h'] ['j', 'o', 'n'] = 0 := by
    rw [pairAward, if_neg (by decide), if_neg (by decide)]
  have e22 : pairAward ['s', 'm', 'i', 't', 'h'] ['s', 'm', 'i', 't', 'h'] = 1 := by
    rw [pairAward, if_pos (by decide)]
  rw [nameSimilarity, hne, if_neg (by decide), hA, hB]
  simp only [scoreParts, List.foldl, e11, e12, e21, e22,
    List.length_cons, List.length_nil]
  norm_num

theorem nameSimilarity_sarah_sara : nameSimilarity "Sarah Lee" "Sara Lee" = 9 / 10 := by
  have hA : splitSpace (normalizeName "Sarah Lee").data
      = [['s', 'a', 'r', 'a', 'h'], ['l', 'e', 'e']] := by decide
  have hB : splitSpace (normalizeName "Sara Lee").data
      = [['s', 'a', 'r', 'a'], ['l', 'e', 'e']] := by decide
  have hne : (normalizeName "Sarah Lee" == normalizeName "Sara Lee") = false := by decide
  have e11 : pairAward ['s', 'a', 'r', 'a', 'h'] ['s', 'a', 'r', 'a'] = 4 / 5 := by
    rw [pairAward, if_neg (by decide), if_pos (by decide), if_pos (by decide)]
  have e12 : pairAward ['s', 'a', 'r', 'a', 'h'] ['l', 'e', 'e'] = 0 := by
    rw [pairAward, if_neg (by decide), if_neg (by decide)]
  have e21 : pairAward ['l', 'e', 'e'] ['s', 'a', 'r', 'a'] = 0 := by
    rw [pairAward, if_neg (by decide), if_neg (by decide)]
  have e22 : pairAward ['l', 'e', 'e'] ['l', 'e', 'e'] = 1 := by
    rw [pairAward, if_pos (by decide)]
  rw [nameSimilarity, hne, if_neg (by decide), hA, hB]
  simp only [scoreParts, List.foldl, e11, e12, e21, e22,
    List.length_cons, List.length_nil]
  norm_num

theorem nameSimilarity_john_alice : nameSimilarity "John Smith" "Alice Johnson" = 0 := by
  have hA : splitSpace (normalizeName "John Smith").data
      = [['j', 'o', 'h', 'n'], ['s', 'm', 'i', 't', 'h']] := by decide
  have hB : splitSpace (normalizeName "Alice Johnson").data
      = [['a', 'l', 'i', 'c', 'e'], ['j', 'o', 'h', 'n', 's', 'o', 'n']] := by decide
  have hne : (normalizeName "John Smith" == normalizeName "Alice Johnson") = false := by decide
  have e11 : pairAward ['j', 'o', 'h', 'n'] ['a', 'l', 'i', 'c', 'e'] = 0 := by
    rw [pairAward, if_neg (by decide), if_pos (by decide), if_neg (by decide)]
  have e12 : pairAward ['j', 'o', 'h', 'n'] ['j', 'o', 'h', 'n', 's', 'o', 'n'] = 0 := by
    rw [pairAward, if_neg (by decide), if_neg (by decide)]
  have e21 : pairAward ['s', 'm', 'i', 't', 'h'] ['a', 'l', 'i', 'c', 'e'] = 0 := by
    rw [pairAward, if_neg (by decide), if_pos (by decide), if_neg (by decide)]
  have e22 : pairAward ['s', 'm', 'i', 't', 'h'] ['j', 'o', 'h', 'n', 's', 'o', 'n'] = 0 := by
    rw [pairAward, if_neg (by decide), if_neg (by decide)]
  rw [nameSimilarity, hne, if_neg (by decide), hA, hB]
  simp only [scoreParts, List.foldl, e11, e12, e21, e22,
    List.length_cons, List.length_nil]
  norm_num

/-- C1, counterexample: the spec asserts
`nameSimilarity("John Smith", "Jon Smith") > 0.7`, but the code awards the
0.8 typo credit only when both tokens are longer than 3 characters, which
excludes the 3-letter token `jon`; the actual score is 0.5, so the first
of the three claimed bounds is false. -/
theorem C1_fuzzy_counterexample :
    ¬ ((7 : ℚ) / 10 < nameSimilarity "John Smith" "Jon Smith") := by
  rw [nameSimilarity_john_jon]
  norm_num

/-- C1, amended: `nameSimilarity("John Smith", "Jon Smith")` evaluates to
exactly 0.5 (the 0.8 credit requires both tokens longer than 3
characters, so `john`/`jon` earns nothing and only `smith`/`smith`
scores), which does not exceed the 0.7 threshold; the other two spec
bounds hold: `nameSimilarity("Sarah Lee", "Sara Lee") = 0.9 > 0.7` and
`nameSimilarity("John Smith", "Alice Johnson") = 0 ≤ 0.7`. -/
theorem C1_fuzzy_amended :
    nameSimilarity "John Smith" "Jon Smith" = 1 / 2 ∧
    ¬ ((7 : ℚ) / 10 < 1 / 2) ∧
    nameSimilarity "Sarah Lee" "Sara Lee" = 9 / 10 ∧
    (7 : ℚ) / 10 < 9 / 10 ∧
    nameSimilarity "John Smith" "Alice Johnson" = 0 ∧
    ¬ ((7 : ℚ) / 10 < (0 : ℚ)) :=
  ⟨nameSimilarity_john_jon, by norm_num, nameSimilarity_sarah_sara, by norm_num,
    nameSimilarity_john_alice, by norm_num⟩

/-! ### Keyword classification helpers (src/server.js lines 38-72) -/

/-- `generateAutoTags` (src/server.js lines 38-59): purpose-keyed tags
followed by keyword-triggered tags, deduplicated. -/
def generateAutoTags (purpose message : String) : List String :=
  let msg := jsToLower message
  let purposeTags : List String :=
    if purpose == "Billing" then ["Billing inquiry"]
    else if purpose == "Tech Support" then ["Technical issue"]
    else if purpose == "Product Questions" then ["Product inquiry"]
    else if purpose == "Shipping & Delivery" then ["Shipping issue"]
    else if purpose == "Returns & Refunds" then ["Refund request"]
    else if purpose == "Wholesale" then ["Wholesale inquiry", "Bulk order"]
    else if purpose == "Partnership" then ["Partnership inquiry"]
    else if purpose == "Press & Media" then ["Press inquiry"]
    else if purpose == "Other" then ["General inquiry"]
    else []
  let tags := purposeTags
    ++ (if jsIncludes msg "cancel" || jsIncludes msg "subscription" then ["Subscription issue"] else [])
    ++ (if jsIncludes msg "refund" || jsIncludes msg "money back" then ["Refund request"] else [])
    ++ (if jsIncludes msg "tracking" || jsIncludes msg "where is my order" then ["Tracking question"] else [])
    ++ (if jsIncludes msg "flavor" || jsIncludes msg "taste" then ["Flavor feedback"] else [])
    ++ (if jsIncludes msg "bulk" || jsIncludes msg "event" || jsIncludes msg "wholesale" then ["Bulk opportunity"] else [])
    ++ (if jsIncludes msg "love" || jsIncludes msg "amazing" || jsIncludes msg "obsessed" then ["Positive sentiment"] else [])
    ++ (if jsIncludes msg "disappoint" || jsIncludes msg "not working" || jsIncludes msg "doesn\x27t work" then ["At risk"] else [])
    ++ (if jsIncludes msg "gift" then ["Gift buyer"] else [])
    ++ (if jsIncludes msg "how long" || jsIncludes msg "dosage" || jsIncludes msg "how much" then ["Dosage question"] else [])
    ++ (if jsIncludes msg "new flavor" || jsIncludes msg "mango" || jsIncludes msg "lemon" then ["New flavor interest"] else [])
  jsSetDedup tags

/-- `generateSummary` (src/server.js lines 61-63); the message argument
is accepted and ignored exactly as in the source. -/
def generateSummary (purpose _message name : String) : String :=
  name ++ " submitted a " ++ jsToLower purpose ++ " inquiry via the contact form."

/-- `determinePriority` (src/server.js lines 65-72). -/
def determinePriority (purpose message : String) : String :=
  let msg := jsToLower message
  if jsIncludes msg "urgent" || jsIncludes msg "asap" || jsIncludes msg "immediately" then "urgent"
  else if purpose == "Returns & Refunds" || jsIncludes msg "refund" || jsIncludes msg "cancel" then "high"
  else if purpose == "Billing" || purpose == "Shipping & Delivery" then "high"
  else if purpose == "Wholesale" || purpose == "Partnership" then "medium"
  else "medium"

/-! ### Data model

The Supabase rows used by the core logic.  Nullable columns are
`Option`; `metadata` JSON blobs on messages carry no decision logic and
are not modelled.  Timestamps are milliseconds since the epoch. -/

/-- A row of the `customers` table. -/
structure Customer where
  id : Nat
  name : String
  email : String
  phone : Option String
  alt_emails : Option (List String)
  tags : List String
  ticket_count : Nat
  possible_duplicate_of : Option Nat
  shopify_customer_id : Option Nat
  shopify_order_count : Option Nat
  shopify_ltv : Option Nat
  updated_at : Nat
deriving Repr, DecidableEq

/-- A row of the `tickets` table (`id` is the internal key, `ticket_id`
the human-facing `TIX-xxxx` display id). -/
structure Ticket where
  id : Nat
  ticket_id : String
  customer_id : Nat
  subject : String
  status : String
  priority : String
  channel : String
  ai_tags : Option (List String)
  ai_summary : String
  purpose : String
  created_at : Nat
  updated_at : Nat
deriving Repr, DecidableEq

/-- A row of the `messages` table, in insertion order. -/
structure Message where
  ticket_id : Nat
  sender_type : String
  sender_name : String
  content : String
deriving Repr, DecidableEq

/-- The database. -/
structure Store where
  customers : List Customer
  tickets : List Ticket
  messages : List Message
deriving Repr, DecidableEq

/-- `.update(...).eq('id', i)` on the `customers` table. -/
def updateCustomerById (st : Store) (i : Nat) (f : Customer → Customer) : Store :=
  { st with customers := st.customers.map (fun c => if c.id == i then f c else c) }

/-- `.update(...).eq('id', i)` on the `tickets` table. -/
def updateTicketById (st : Store) (i : Nat) (f : Ticket → Ticket) : Store :=
  { st with tickets := st.tickets.map (fun t => if t.id == i then f t else t) }

/-- `.insert(...)` on the `messages` table. -/
def addMessage (st : Store) (m : Message) : Store :=
  { st with messages := st.messages ++ [m] }

/-- `.single()`: the row when the query returned exactly one row, else
`null` (the code ignores the accompanying error object). -/
def singleRow (l : List Customer) : Option Customer :=
  match l with
  | [c] => some c
  | _ => none

/-! ### Identity resolution (`findOrCreateCustomer`,
src/server.js lines 147-241) -/

/-- The object `findOrCreateCustomer` resolves to. -/
structure ResolveOutcome where
  customer : Customer
  matchType : String
  possibleMatch : Option Customer
  isNew : Bool
deriving Repr, DecidableEq

/-- The `updates` object of the email tier (src/server.js lines 156-160):
bump `ticket_count` from the fetched row, touch `updated_at`, set `name`
only when the incoming full name is truthy and differs, set `phone` only
when the incoming phone is truthy and the stored one is falsy. -/
def emailUpdate (byEmail : Customer) (phone : Option String) (fullName : String)
    (now : Nat) : Customer → Customer :=
  fun d =>
    { d with
      updated_at := now
      ticket_count := byEmail.ticket_count + 1
      name := if fullName ≠ "" ∧ fullName ≠ byEmail.name then fullName else d.name
      phone := if optTruthy phone ∧ ¬ optTruthy byEmail.phone then phone else d.phone }

/-- The `updates` object of the phone tier (src/server.js lines 180-184):
bump `ticket_count`, touch `updated_at`, and append the lowercased
incoming email to `alt_emails` unless already present (a `null` column
becomes a one-element array). -/
def phoneUpdate (byPhone : Customer) (email : String) (now : Nat) : Customer → Customer :=
  fun d =>
    { d with
      updated_at := now
      ticket_count := byPhone.ticket_count + 1
      alt_emails :=
        match byPhone.alt_emails with
        | none => some [jsToLower email]
        | some l => if jsToLower email ∈ l then d.alt_emails else some (l ++ [jsToLower email]) }

/-- The row inserted for a brand-new customer (src/server.js lines
211-221 and 229-238): lowercased email, `ticket_count = 1`, empty tags,
optional `possible_duplicate_of` flag. -/
def createCustomer (email : String) (phone : Option String) (fullName : String)
    (pdup : Option Nat) (now newId : Nat) : Customer :=
  { id := newId
    name := fullName
    email := jsToLower email
    phone := if optTruthy phone then phone else none
    alt_emails := none
    tags := []
    ticket_count := 1
    possible_duplicate_of := pdup
    shopify_customer_id := none
    shopify_order_count := none
    shopify_ltv := none
    updated_at := now }

/-- Tier 4 (src/server.js lines 228-240): insert a fresh customer; a
unique-constraint violation on the insert (`insertOk = false`) is thrown
to the caller. -/
def resolveNew (st : Store) (email : String) (phone : Option String) (fullName : String)
    (now newId : Nat) (insertOk : Bool) : Except String (ResolveOutcome × Store) :=
  if insertOk then
    let newC := createCustomer email phone fullName none now newId
    .ok ({ customer := newC, matchType := "new", possibleMatch := none, isNew := true },
         { st with customers := st.customers ++ [newC] })
  else .error "duplicate key value violates unique constraint"

/-- Tier 3 (src/server.js lines 193-226): when the trimmed full name has
at least two space-separated parts, scan every customer for the best
`nameSimilarity` score strictly above 0.7; on a hit create a new customer
flagged `possible_duplicate_of` the best match. -/
def resolveByName (st : Store) (email : String) (phone : Option String) (fullName : String)
    (now newId : Nat) (insertOk : Bool) : Except String (ResolveOutcome × Store) :=
  let nameParts := splitSpace (jsTrim fullName).data
  if 2 ≤ nameParts.length then
    let best := st.customers.foldl (fun acc c =>
      let score := nameSimilarity fullName c.name
      if (7 : ℚ) / 10 < score ∧ acc.2 < score then (some c, score) else acc)
      ((none : Option Customer), (0 : ℚ))
    match best.1 with
    | some bestMatch =>
      if insertOk then
        let newC := createCustomer email phone fullName (some bestMatch.id) now newId
        .ok ({ customer := newC, matchType := "possible_duplicate",
               possibleMatch := some bestMatch, isNew := true },
             { st with customers := st.customers ++ [newC] })
      else .error "duplicate key value violates unique constraint"
    | none => resolveNew st email phone fullName now newId insertOk
  else resolveNew st email phone fullName now newId insertOk

/-- Tier 2 (src/server.js lines 164-191): when the incoming phone is
truthy and normalizes to at least 10 digits, find the first customer with
a non-null phone whose last 10 normalized digits agree, update it and
return it; otherwise fall through to the name tier. -/
def resolveByPhone (st : Store) (email : String) (phone : Option String) (fullName : String)
    (now newId : Nat) (insertOk : Bool) : Except String (ResolveOutcome × Store) :=
  if optTruthy phone then
    let cleanPhone := digitsOf (phone.getD "")
    if 10 ≤ cleanPhone.length then
      let phoneSuffix := lastN 10 cleanPhone
      match (st.customers.filter (fun c => c.phone.isSome)).find?
          (fun c => lastN 10 (digitsOf (c.phone.getD "")) == phoneSuffix) with
      | some phoneMatch =>
        .ok ({ customer := phoneMatch, matchType := "phone", possibleMatch := none, isNew := false },
             updateCustomerById st phoneMatch.id (phoneUpdate phoneMatch email now))
      | none => resolveByName st email phone fullName now newId insertOk
    else resolveByName st email phone fullName now newId insertOk
  else resolveByName st email phone fullName now newId insertOk

/-- `findOrCreateCustomer` (src/server.js lines 147-241).  Tier 1: exact
match on the lowercased email via `.single()` (which yields a row only
when exactly one matches); on a hit apply `emailUpdate` and return the
fetched row; otherwise fall through to the phone tier. -/
def findOrCreateCustomer (st : Store) (email : String) (phone : Option String)
    (fullName : String) (now newId : Nat) (insertOk : Bool) :
    Except String (ResolveOutcome × Store) :=
  match singleRow (st.customers.filter (fun c => c.email == jsToLower email)) with
  | some byEmail =>
    .ok ({ customer := byEmail, matchType := "email", possibleMatch := none, isNew := false },
         updateCustomerById st byEmail.id (emailUpdate byEmail phone fullName now))
  | none => resolveByPhone st email phone fullName now newId insertOk

/-! ### Generic list lemmas used to trace updates through the store -/

theorem filter_map_guard {α : Type} (l : List α) (p : α → Bool) (f : α → α)
    (hf : ∀ a, p a = true → p (f a) = true) :
    (l.map fun a => if p a then f a else a).filter p = (l.filter p).map f := by
  induction l with
  | nil => rfl
  | cons a l ih =>
    simp only [List.map_cons, List.filter_cons]
    by_cases h : p a = true
    · simp [h, hf a h, ih]
    · simp only [Bool.not_eq_true] at h
      simp [h, ih]

theorem filter_map_invariant {α : Type} (l : List α) (p : α → Bool) (f : α → α)
    (hp : ∀ a, p (f a) = p a) :
    (l.map f).filter p = (l.filter p).map f := by
  induction l with
  | nil => rfl
  | cons a l ih =>
    simp only [List.map_cons, List.filter_cons, hp]
    by_cases h : p a = true
    · simp [h, ih]
    · simp only [Bool.not_eq_true] at h
      simp [h, ih]

theorem find_map_invariant {α : Type} (l : List α) (p : α → Bool) (f : α → α)
    (hp : ∀ a, p (f a) = p a) :
    (l.map f).find? p = (l.find? p).map f := by
  induction l with
  | nil => rfl
  | cons a l ih =>
    by_cases h : p a = true
    · rw [List.map_cons, List.find?_cons_of_pos _ (by rw [hp]; exact h),
        List.find?_cons_of_pos _ h, Option.map]
    · rw [List.map_cons, List.find?_cons_of_neg _ (by rw [hp]; exact h),
        List.find?_cons_of_neg _ h, ih]

theorem mem_jsSetAux (x : String) (seen l : List String) :
    x ∈ jsSetAux seen l ↔ x ∈ l ∧ x ∉ seen := by
  induction l generalizing seen with
  | nil => simp [jsSetAux]
  | cons y ys ih =>
    by_cases hy : y ∈ seen
    · rw [jsSetAux, if_pos hy, ih]
      constructor
      · rintro ⟨hxl, hxs⟩
        exact ⟨List.mem_cons_of_mem _ hxl, hxs⟩
      · rintro ⟨hxl, hxs⟩
        rcases List.mem_cons.mp hxl with hxy | hxl
        · exact absurd (hxy ▸ hy) hxs
        · exact ⟨hxl, hxs⟩
    · rw [jsSetAux, if_neg hy]
      constructor
      · intro hx
        rcases List.mem_cons.mp hx with hxy | hx
        · exact ⟨hxy ▸ List.mem_cons_self _ _, hxy ▸ hy⟩
        · rcases (ih _).mp hx with ⟨hxl, hxs⟩
          simp only [List.mem_append, List.mem_singleton, not_or] at hxs
          exact ⟨List.mem_cons_of_mem _ hxl, hxs.1⟩
      · rintro ⟨hxl, hxs⟩
        rcases List.mem_cons.mp hxl with hxy | hxl
        · exact hxy ▸ List.mem_cons_self _ _
        · by_cases hxy : x = y
          · exact hxy ▸ List.mem_cons_self _ _
          · refine List.mem_cons_of_mem _ ((ih _).mpr ⟨hxl, ?_⟩)
            simp only [List.mem_append, List.mem_singleton, not_or]
            exact ⟨hxs, hxy⟩

theorem mem_jsSetDedup (x : String) (l : List String) :
    x ∈ jsSetDedup l ↔ x ∈ l := by
  rw [jsSetDedup, mem_jsSetAux]
  simp

theorem filter_filter_of_imp {α : Type} (l : List α) (p q : α → Bool)
    (himp : ∀ a, p a = true → q a = true) :
    (l.filter q).filter p = l.filter p := by
  induction l with
  | nil => rfl
  | cons a l ih =>
    by_cases hq : q a = true
    · rw [List.filter_cons_of_pos hq]
      by_cases hp : p a = true
      · rw [List.filter_cons_of_pos hp, List.filter_cons_of_pos hp, ih]
      · rw [List.filter_cons_of_neg hp, List.filter_cons_of_neg hp, ih]
    · rw [List.filter_cons_of_neg hq, List.filter_cons_of_neg (fun hpa => hq (himp a hpa)), ih]

theorem length_map_filter_guard {α : Type} (l : List α) (p : α → Bool) (f : α → α) :
    (l.map fun a => if p a then f a else a).length = l.length :=
  List.length_map l _

/-! ### C7: exact-email resolution -/

/-- What C7 claims an exact-email resolution does: the matched customer
is returned with `matchKind = "email"`, no customer row is created or
deleted, tickets are untouched, and the matched row ends with its ticket
count bumped by one, the name replaced when the incoming one differs,
and the phone backfilled only when it was previously absent. -/
def emailResolveSpec (st : Store) (c : Customer) (phone : Option String)
    (fullName : String) (now : Nat) (out : ResolveOutcome) (st' : Store) : Prop :=
  out.customer = c ∧
  out.matchType = "email" ∧
  st'.customers.length = st.customers.length ∧
  st'.tickets = st.tickets ∧
  st'.customers.filter (fun d => d.id == c.id) =
    [{ c with
        updated_at := now
        ticket_count := c.ticket_count + 1
        name := if fullName ≠ c.name then fullName else c.name
        phone := if optTruthy phone ∧ ¬ optTruthy c.phone then phone else c.phone }]

theorem findOrCreate_email_eq (st : Store) (c : Customer) (email : String)
    (phone : Option String) (fullName : String) (now newId : Nat) (insertOk : Bool)
    (huni : st.customers.filter (fun d => d.email == jsToLower email) = [c]) :
    findOrCreateCustomer st email phone fullName now newId insertOk
      = .ok ({ customer := c, matchType := "email", possibleMatch := none, isNew := false },
             updateCustomerById st c.id (emailUpdate c phone fullName now)) := by
  unfold findOrCreateCustomer
  rw [huni]
  rfl

/-- C7: for a customer `c` that is the unique row whose primary email is
the lowercase of the incoming email (hence the match fires under any
letter casing of the incoming address) and the unique row with its id,
resolution returns `c` with `matchKind = "email"`, increments its ticket
count by exactly one, updates its name when the (nonempty) incoming name
differs, backfills its phone only when previously absent, and creates no
second customer record. -/
theorem C7_email_resolution (st : Store) (c : Customer) (email fullName : String)
    (phone : Option String) (now newId : Nat) (insertOk : Bool)
    (hfn : fullName ≠ "")
    (huni : st.customers.filter (fun d => d.email == jsToLower email) = [c])
    (hid : st.customers.filter (fun d => d.id == c.id) = [c]) :
    ∃ out st', findOrCreateCustomer st email phone fullName now newId insertOk
        = .ok (out, st') ∧ emailResolveSpec st c phone fullName now out st' := by
  refine ⟨_, _, findOrCreate_email_eq st c email phone fullName now newId insertOk huni,
    rfl, rfl, ?_, rfl, ?_⟩
  · exact length_map_filter_guard _ _ _
  · have hpres : ∀ a : Customer, (a.id == c.id) = true →
        (((emailUpdate c phone fullName now) a).id == c.id) = true := by
      intro a ha
      simpa [emailUpdate] using ha
    rw [updateCustomerById]
    simp only []
    rw [filter_map_guard st.customers _ _ hpres, hid]
    simp only [List.map_cons, List.map_nil, List.cons.injEq, and_true]
    rw [emailUpdate]
    by_cases h : fullName = c.name <;> simp [h, hfn]

/-- Concrete store for the C7 witness. -/
def custC7 : Customer :=
  { id := 1, name := "Amy Pond", email := "amy@example.com", phone := none,
    alt_emails := none, tags := [], ticket_count := 1, possible_duplicate_of := none,
    shopify_customer_id := none, shopify_order_count := none, shopify_ltv := none,
    updated_at := 0 }

/-- Concrete store for the C7 witness. -/
def storeC7 : Store := { customers := [custC7], tickets := [], messages := [] }

/-- C7 witness: the hypotheses are satisfiable at a concrete store (with
an incoming email differing from the stored one only in casing) and the
theorem applies there. -/
theorem C7_email_resolution_witness :
    (("Amy R Pond" : String) ≠ "" ∧
     storeC7.customers.filter (fun d => d.email == jsToLower "Amy@Example.Com") = [custC7] ∧
     storeC7.customers.filter (fun d => d.id == custC7.id) = [custC7]) ∧
    ∃ out st', findOrCreateCustomer storeC7 "Amy@Example.Com" (some "555-867-5309")
        "Amy R Pond" 7 99 true = .ok (out, st') ∧
      emailResolveSpec storeC7 custC7 (some "555-867-5309") "Amy R Pond" 7 out st' :=
  ⟨⟨by decide, by decide, by decide⟩,
    C7_email_resolution storeC7 custC7 "Amy@Example.Com" "Amy R Pond"
      (some "555-867-5309") 7 99 true (by decide) (by decide) (by decide)⟩

/-! ### C8: phone-suffix resolution -/

/-- What C8 claims a phone-suffix resolution does: the matched customer
is returned with `matchKind = "phone"`, no row is created or deleted,
tickets are untouched, the matched row is updated by `phoneUpdate`, and
the lowercased incoming email ends up in its alternate-email list —
exactly once when it was not already there. -/
def phoneResolveSpec (st : Store) (m : Customer) (email : String) (now : Nat)
    (out : ResolveOutcome) (st' : Store) : Prop :=
  out.customer = m ∧
  out.matchType = "phone" ∧
  st'.customers.length = st.customers.length ∧
  st'.tickets = st.tickets ∧
  st'.customers.filter (fun d => d.id == m.id) = [phoneUpdate m email now m] ∧
  jsToLower email ∈ ((phoneUpdate m email now m).alt_emails.getD []) ∧
  (jsToLower email ∉ m.alt_emails.getD [] →
    ((phoneUpdate m email now m).alt_emails.getD []).count (jsToLower email) = 1)

theorem findOrCreate_phone_eq (st : Store) (m : Customer) (email p fullName : String)
    (now newId : Nat) (insertOk : Bool)
    (hmail : st.customers.filter (fun d => d.email == jsToLower email) = [])
    (hp10 : 10 ≤ (digitsOf p).length)
    (hfind : (st.customers.filter (fun c => c.phone.isSome)).find?
        (fun c => lastN 10 (digitsOf (c.phone.getD "")) == lastN 10 (digitsOf p)) = some m) :
    findOrCreateCustomer st email (some p) fullName now newId insertOk
      = .ok ({ customer := m, matchType := "phone", possibleMatch := none, isNew := false },
             updateCustomerById st m.id (phoneUpdate m email now)) := by
  have hpne : p ≠ "" := by
    intro h
    subst h
    simp [digitsOf] at hp10
  have ht : optTruthy (some p) = true := by
    simp [optTruthy, hpne]
  unfold findOrCreateCustomer
  rw [hmail]
  show resolveByPhone st email (some p) fullName now newId insertOk = _
  unfold resolveByPhone
  rw [if_pos ht]
  simp only [Option.getD_some]
  rw [if_pos hp10, hfind]

/-- C8: when the incoming email matches no primary email, the incoming
phone normalizes to at least 10 digits, and `m` is the customer found by
the last-10-digit scan (and the unique row with its id), resolution
returns `m` with `matchKind = "phone"` and adds the lowercased incoming
email to `m`'s alternate emails exactly once; resolving the identical
contact a second time returns the same customer again and leaves the
alternate-email list unchanged. -/
theorem C8_phone_resolution (st : Store) (m : Customer) (email p fullName : String)
    (now now2 newId newId2 : Nat)
    (hmail : st.customers.filter (fun d => d.email == jsToLower email) = [])
    (hp10 : 10 ≤ (digitsOf p).length)
    (hfind : (st.customers.filter (fun c => c.phone.isSome)).find?
        (fun c => lastN 10 (digitsOf (c.phone.getD "")) == lastN 10 (digitsOf p)) = some m)
    (hid : st.customers.filter (fun d => d.id == m.id) = [m]) :
    ∃ out st', findOrCreateCustomer st email (some p) fullName now newId true = .ok (out, st') ∧
      phoneResolveSpec st m email now out st' ∧
      ∃ out2 st'', findOrCreateCustomer st' email (some p) fullName now2 newId2 true
          = .ok (out2, st'') ∧
        out2.matchType = "phone" ∧
        ∀ c2 ∈ st''.customers.filter (fun d => d.id == m.id),
          c2.alt_emails = (phoneUpdate m email now m).alt_emails := by
  have hidpres : ∀ (x : Customer) (em : String) (n : Nat),
      (phoneUpdate x em n x).id = x.id := fun _ _ _ => rfl
  have hmem : jsToLower email ∈ ((phoneUpdate m email now m).alt_emails.getD []) := by
    rcases halt : m.alt_emails with _ | l
    · simp [phoneUpdate, halt]
    · by_cases he : jsToLower email ∈ l
      · simp [phoneUpdate, halt, he]
      · simp [phoneUpdate, halt, he]
  refine ⟨_, _, findOrCreate_phone_eq st m email p fullName now newId true hmail hp10 hfind,
    ⟨rfl, rfl, length_map_filter_guard _ _ _, rfl, ?_, hmem, ?_⟩, ?_⟩
  · have hpres : ∀ a : Customer, (a.id == m.id) = true →
        (((phoneUpdate m email now) a).id == m.id) = true := by
      intro a ha
      simpa [phoneUpdate] using ha
    rw [updateCustomerById]
    simp only []
    rw [filter_map_guard st.customers _ _ hpres, hid]
    rfl
  · intro hnotin
    rcases halt : m.alt_emails with _ | l
    · simp [phoneUpdate, halt]
    · rw [halt] at hnotin
      simp only [Option.getD_some] at hnotin
      simp only [phoneUpdate, halt, if_neg hnotin, Option.getD_some]
      rw [List.count_append]
      rw [List.count_eq_zero.mpr hnotin]
      simp
  · -- second, identical resolution on the updated store
    set g : Customer → Customer :=
      fun c => if c.id == m.id then phoneUpdate m email now c else c with hg
    have hmail2 : (updateCustomerById st m.id (phoneUpdate m email now)).customers.filter
        (fun d => d.email == jsToLower email) = [] := by
      rw [updateCustomerById]
      simp only []
      rw [filter_map_invariant st.customers _ g (by
        intro a
        rw [hg]
        by_cases h : (a.id == m.id) = true <;> simp [h, phoneUpdate])]
      rw [hmail, List.map_nil]
    have hfind2 : ((updateCustomerById st m.id (phoneUpdate m email now)).customers.filter
          (fun c => c.phone.isSome)).find?
        (fun c => lastN 10 (digitsOf (c.phone.getD "")) == lastN 10 (digitsOf p))
        = some (phoneUpdate m email now m) := by
      rw [updateCustomerById]
      simp only []
      rw [filter_map_invariant st.customers _ g (by
        intro a
        rw [hg]
        by_cases h : (a.id == m.id) = true <;> simp [h, phoneUpdate])]
      rw [find_map_invariant _ _ g (by
        intro a
        rw [hg]
        by_cases h : (a.id == m.id) = true <;> simp [h, phoneUpdate])]
      rw [hfind]
      simp [hg]
    refine ⟨_, _, findOrCreate_phone_eq _ (phoneUpdate m email now m) email p fullName
      now2 newId2 true hmail2 hp10 hfind2, rfl, ?_⟩
    intro c2 hc2
    have hpres2 : ∀ a : Customer, (a.id == (phoneUpdate m email now m).id) = true →
        (((phoneUpdate (phoneUpdate m email now m) email now2) a).id
          == (phoneUpdate m email now m).id) = true := by
      intro a ha
      simpa [phoneUpdate] using ha
    rw [updateCustomerById] at hc2
    simp only [] at hc2
    rw [hidpres m email now] at hc2
    rw [filter_map_guard _ _ _ (by
      intro a ha
      simpa [phoneUpdate] using ha)] at hc2
    have hfilter1 : (updateCustomerById st m.id (phoneUpdate m email now)).customers.filter
        (fun d => d.id == m.id) = [phoneUpdate m email now m] := by
      rw [updateCustomerById]
      simp only []
      rw [filter_map_guard st.customers _ _ (by
        intro a ha
        simpa [phoneUpdate] using ha), hid]
      rfl
    rw [hfilter1] at hc2
    simp only [List.map_cons, List.map_nil, List.mem_singleton] at hc2
    subst hc2
    rcases halt : m.alt_emails with _ | l
    · simp [phoneUpdate, halt]
    · by_cases he : jsToLower email ∈ l
      · simp [phoneUpdate, halt, he]
      · simp [phoneUpdate, halt, he]

/-- Concrete customer for the C8 witness: stored phone carries a `+1`
country prefix. -/
def custC8 : Customer :=
  { id := 2, name := "Bob Builder", email := "bob@example.com",
    phone := some "+1 (555) 123-4567", alt_emails := none, tags := [],
    ticket_count := 3, possible_duplicate_of := none, shopify_customer_id := none,
    shopify_order_count := none, shopify_ltv := none, updated_at := 0 }

/-- Concrete store for the C8 witness. -/
def storeC8 : Store := { customers := [custC8], tickets := [], messages := [] }

/-- C8 witness: the hypotheses hold at a concrete store (incoming phone
without the `+1` prefix, fresh incoming email) and the theorem applies
there. -/
theorem C8_phone_resolution_witness :
    (storeC8.customers.filter (fun d => d.email == jsToLower "New@EX.com") = [] ∧
     10 ≤ (digitsOf "555-123-4567").length ∧
     (storeC8.customers.filter (fun c => c.phone.isSome)).find?
        (fun c => lastN 10 (digitsOf (c.phone.getD "")) == lastN 10 (digitsOf "555-123-4567"))
        = some custC8 ∧
     storeC8.customers.filter (fun d => d.id == custC8.id) = [custC8]) ∧
    (∃ out st', findOrCreateCustomer storeC8 "New@EX.com" (some "555-123-4567")
        "Bob Builder" 3 50 true = .ok (out, st') ∧
      phoneResolveSpec storeC8 custC8 "New@EX.com" 3 out st' ∧
      ∃ out2 st'', findOrCreateCustomer st' "New@EX.com" (some "555-123-4567")
          "Bob Builder" 4 51 true = .ok (out2, st'') ∧
        out2.matchType = "phone" ∧
        ∀ c2 ∈ st''.customers.filter (fun d => d.id == custC8.id),
          c2.alt_emails = (phoneUpdate custC8 "New@EX.com" 3 custC8).alt_emails) :=
  ⟨⟨by decide, by decide, by decide, by decide⟩,
   C8_phone_resolution storeC8 custC8 "New@EX.com" "555-123-4567" "Bob Builder" 3 4 50 51
     (by decide) (by decide) (by decide) (by decide)⟩

/-! ### Thread routing (`POST /webhook/contact-form`,
src/server.js lines 243-253 and 267-412) -/

/-- `.order('updated_at', { ascending: false }).limit(1)`: the first row
with the maximal `updated_at` (earlier rows win ties). -/
def latestBy (l : List Ticket) : Option Ticket :=
  l.foldl (fun acc t =>
    match acc with
    | none => some t
    | some b => if b.updated_at < t.updated_at then some t else some b) none

/-- `findOpenTicketForCustomer` (src/server.js lines 244-253): the
most-recently-updated `open`/`pending` ticket of the customer, if any. -/
def findOpenTicketForCustomer (st : Store) (cid : Nat) : Option Ticket :=
  latestBy (st.tickets.filter
    (fun t => t.customer_id == cid && (t.status == "open" || t.status == "pending")))

/-- The reopen window: 24 hours in milliseconds (src/server.js line 325). -/
def reopenWindowMs : Nat := 24 * 60 * 60 * 1000

/-- The JSON body of the webhook 201 response (src/server.js lines
400-406); `possible_duplicate` carries `(id, name, email)`. -/
structure WebhookResponse where
  ticket_id : String
  action : String
  customer_match : String
  possible_duplicate : Option (Nat × String × String)
deriving Repr, DecidableEq

/-- The brand-new-ticket branch (src/server.js lines 358-397): insert the
ticket, the customer's message, and the auto-acknowledgement carrying the
display id; returns the display id and the new store. -/
def createTicketBranch (st1 : Store) (customerId : Nat) (purpose : Option String)
    (purposeStr msg fullName priority : String) (autoTags : List String)
    (now newTicketDbId : Nat) (newTicketDisplayId : String) : String × Store :=
  let subjPurpose := if optTruthy purpose then purpose.getD "" else "General"
  let newT : Ticket :=
    { id := newTicketDbId
      ticket_id := newTicketDisplayId
      customer_id := customerId
      subject := subjPurpose ++ ": " ++ String.mk (msg.data.take 60)
        ++ (if 60 < msg.length then "..." else "")
      status := "open"
      priority := priority
      channel := "site_form"
      ai_tags := some autoTags
      ai_summary := generateSummary purposeStr msg fullName
      purpose := purposeStr
      created_at := now
      updated_at := now }
  let stA := { st1 with tickets := st1.tickets ++ [newT] }
  let stB := addMessage stA
    { ticket_id := newTicketDbId, sender_type := "customer", sender_name := fullName, content := msg }
  let stC := addMessage stB
    { ticket_id := newTicketDbId, sender_type := "agent", sender_name := "Auto-reply",
      content := "Thanks for reaching out! We\x27ve received your message and a team member will get back to you shortly. Your ticket number is " ++ newTicketDisplayId ++ "." }
  (newTicketDisplayId, stC)

/-- `POST /webhook/contact-form` (src/server.js lines 267-412): validate,
resolve the customer, then route the message — thread onto the newest
`open`/`pending` ticket, reopen the newest `resolved`/`closed` ticket
updated less than 24 hours ago, or create a new ticket.  The response
`action` is computed solely from whether an open ticket was found
(line 403), exactly as in the source.  The fresh ids and the `TIX-xxxx`
display id produced by `generateTicketId`'s random draw are parameters. -/
def handleContactForm (st : Store) (first_name last_name email phone purpose message : Option String)
    (now newCustomerId newTicketDbId : Nat) (newTicketDisplayId : String) (insertOk : Bool) :
    Except String (WebhookResponse × Store) :=
  if optTruthy first_name ∧ optTruthy email ∧ optTruthy message then
    let fullName := jsTrim ((first_name.getD "") ++ " " ++ (last_name.getD ""))
    let purposeStr := if optTruthy purpose then purpose.getD "" else "Other"
    let msg := message.getD ""
    let autoTags := generateAutoTags purposeStr msg
    let priority := determinePriority purposeStr msg
    match findOrCreateCustomer st (email.getD "") phone fullName now newCustomerId insertOk with
    | .error e => .error e
    | .ok (outcome, st1) =>
      let customerId := outcome.customer.id
      let openTicket := findOpenTicketForCustomer st1 customerId
      let result : String × Store :=
        match openTicket with
        | some t =>
          let stA := addMessage st1
            { ticket_id := t.id, sender_type := "customer", sender_name := fullName, content := msg }
          let mergedTags := jsSetDedup ((t.ai_tags.getD []) ++ autoTags)
          (t.ticket_id, updateTicketById stA t.id
            (fun tk => { tk with ai_tags := some mergedTags, status := "open", updated_at := now }))
        | none =>
          match latestBy (st1.tickets.filter
              (fun t => t.customer_id == customerId
                && (t.status == "resolved" || t.status == "closed"))) with
          | some rt =>
            if now - rt.updated_at < reopenWindowMs then
              let stA := addMessage st1
                { ticket_id := rt.id, sender_type := "customer", sender_name := fullName, content := msg }
              let stB := addMessage stA
                { ticket_id := rt.id, sender_type := "system", sender_name := "System",
                  content := "Ticket reopened — customer sent a follow-up message." }
              let mergedTags := jsSetDedup ((rt.ai_tags.getD []) ++ autoTags)
              (rt.ticket_id, updateTicketById stB rt.id
                (fun tk => { tk with ai_tags := some mergedTags, status := "open", updated_at := now }))
            else
              createTicketBranch st1 customerId purpose purposeStr msg fullName priority
                autoTags now newTicketDbId newTicketDisplayId
          | none =>
            createTicketBranch st1 customerId purpose purposeStr msg fullName priority
              autoTags now newTicketDbId newTicketDisplayId
      .ok ({ ticket_id := result.1
             action := if openTicket.isSome then "threaded" else "created"
             customer_match := outcome.matchType
             possible_duplicate := outcome.possibleMatch.map (fun pm => (pm.id, pm.name, pm.email)) },
           result.2)
  else
    .error "Missing required fields: first_name, email, message"

theorem findOpen_update_customer (st : Store) (i : Nat) (f : Customer → Customer) (cid : Nat) :
    findOpenTicketForCustomer (updateCustomerById st i f) cid
      = findOpenTicketForCustomer st cid := rfl

/-! ### C9: threading onto an open ticket -/

/-- What C9 claims a threaded contact event does: no ticket is created,
the customer's owned-ticket count is unchanged, exactly the customer's
message is appended, and the target ticket ends with the union of its old
tags and the newly classified tags, forced to `open`. -/
def threadedSpec (st : Store) (c : Customer) (t : Ticket) (fullName msg purposeStr : String)
    (now : Nat) (st' : Store) : Prop :=
  st'.tickets.length = st.tickets.length ∧
  (st'.tickets.filter (fun tk => tk.customer_id == c.id)).length
    = (st.tickets.filter (fun tk => tk.customer_id == c.id)).length ∧
  st'.messages = st.messages ++
    [{ ticket_id := t.id, sender_type := "customer", sender_name := fullName, content := msg }] ∧
  st'.tickets.filter (fun tk => tk.id == t.id)
    = [{ t with
          ai_tags := some (jsSetDedup ((t.ai_tags.getD []) ++ generateAutoTags purposeStr msg))
          status := "open"
          updated_at := now }] ∧
  (∀ x, x ∈ jsSetDedup ((t.ai_tags.getD []) ++ generateAutoTags purposeStr msg)
    ↔ (x ∈ t.ai_tags.getD [] ∨ x ∈ generateAutoTags purposeStr msg))

/-- C9: for a customer `c` resolved by unique email match whose
most-recently-updated `open`/`pending` ticket is `t` (unique row with its
id), a new contact event appends the message to `t`, sets `t`'s tag list
to the union of its existing tags and the newly classified tags, forces
`t`'s status to `open`, reports `action = "threaded"`, and creates no new
ticket, leaving the customer's owned-ticket count unchanged. -/
theorem C9_threading (st : Store) (c : Customer) (t : Ticket) (fn1 e msg : String)
    (ln phone purpose : Option String) (now ncid ntid : Nat) (disp : String)
    (hfn : fn1 ≠ "") (he : e ≠ "") (hmsg : msg ≠ "")
    (huni : st.customers.filter (fun d => d.email == jsToLower e) = [c])
    (hopen : findOpenTicketForCustomer st c.id = some t)
    (htid : st.tickets.filter (fun tk => tk.id == t.id) = [t]) :
    ∃ st', handleContactForm st (some fn1) ln (some e) phone purpose (some msg)
        now ncid ntid disp true
        = .ok ({ ticket_id := t.ticket_id, action := "threaded", customer_match := "email",
                 possible_duplicate := none }, st') ∧
      threadedSpec st c t (jsTrim (fn1 ++ " " ++ ln.getD "")) msg
        (if optTruthy purpose then purpose.getD "" else "Other") now st' := by
  have hcond : optTruthy (some fn1) ∧ optTruthy (some e) ∧ optTruthy (some msg) := by
    simp [optTruthy, hfn, he, hmsg]
  simp only [handleContactForm, Option.getD_some]
  rw [if_pos hcond]
  rw [findOrCreate_email_eq st c e phone (jsTrim (fn1 ++ " " ++ ln.getD "")) now ncid true huni]
  dsimp only
  rw [findOpen_update_customer, hopen]
  dsimp only
  refine ⟨_, rfl, ?_, ?_, rfl, ?_, ?_⟩
  · simp [updateTicketById, addMessage, updateCustomerById]
  · rw [updateTicketById]
    dsimp only [addMessage, updateCustomerById]
    rw [filter_map_invariant st.tickets _ _ (by
      intro a
      by_cases h : (a.id == t.id) = true <;> simp [h])]
    rw [List.length_map]
  · rw [updateTicketById]
    dsimp only [addMessage, updateCustomerById]
    rw [filter_map_guard st.tickets _ _ (by
      intro a ha
      simpa using ha), htid]
    rfl
  · intro x
    rw [mem_jsSetDedup]
    exact List.mem_append

/-- Concrete customer for the C9 and C5 witnesses. -/
def custC9 : Customer :=
  { id := 1, name := "Amy Pond", email := "amy@example.com", phone := none,
    alt_emails := none, tags := [], ticket_count := 1, possible_duplicate_of := none,
    shopify_customer_id := none, shopify_order_count := none, shopify_ltv := none,
    updated_at := 0 }

/-- Concrete open ticket for the C9 and C5 witnesses. -/
def tickC9 : Ticket :=
  { id := 10, ticket_id := "TIX-1001", customer_id := 1, subject := "Other: Hello",
    status := "open", priority := "medium", channel := "site_form",
    ai_tags := some ["General inquiry"], ai_summary := "", purpose := "Other",
    created_at := 0, updated_at := 0 }

/-- Concrete store for the C9 and C5 witnesses. -/
def storeC9 : Store := { customers := [custC9], tickets := [tickC9], messages := [] }

/-- C9 witness: the hypotheses hold at a concrete store and the theorem
applies there. -/
theorem C9_threading_witness :
    (("Amy" : String) ≠ "" ∧ ("amy@example.com" : String) ≠ "" ∧ ("I love it" : String) ≠ "" ∧
     storeC9.customers.filter (fun d => d.email == jsToLower "amy@example.com") = [custC9] ∧
     findOpenTicketForCustomer storeC9 custC9.id = some tickC9 ∧
     storeC9.tickets.filter (fun tk => tk.id == tickC9.id) = [tickC9]) ∧
    ∃ st', handleContactForm storeC9 (some "Amy") none (some "amy@example.com") none
        (some "Other") (some "I love it") 50 2 11 "TIX-1002" true
        = .ok ({ ticket_id := tickC9.ticket_id, action := "threaded", customer_match := "email",
                 possible_duplicate := none }, st') ∧
      threadedSpec storeC9 custC9 tickC9 (jsTrim ("Amy" ++ " " ++ (none : Option String).getD ""))
        "I love it" (if optTruthy (some "Other") then (some "Other").getD "" else "Other") 50 st' :=
  ⟨⟨by decide, by decide, by decide, by decide, by decide, by decide⟩,
   C9_threading storeC9 custC9 tickC9 "Amy" "amy@example.com" "I love it" none none
     (some "Other") 50 2 11 "TIX-1002" (by decide) (by decide) (by decide)
     (by decide) (by decide) (by decide)⟩

/-! ### C2: the reopen branch and the reported action -/

/-- Concrete customer for the C2 evaluation. -/
def custC2 : Customer :=
  { id := 1, name := "Amy Pond", email := "amy@example.com", phone := none,
    alt_emails := none, tags := [], ticket_count := 1, possible_duplicate_of := none,
    shopify_customer_id := none, shopify_order_count := none, shopify_ltv := none,
    updated_at := 1000 }

/-- Concrete resolved ticket for the C2 evaluation, last updated at
timestamp 1000. -/
def tickC2 : Ticket :=
  { id := 10, ticket_id := "TIX-1001", customer_id := 1, subject := "Other: Hi",
    status := "resolved", priority := "medium", channel := "site_form",
    ai_tags := some ["General inquiry"], ai_summary := "", purpose := "Other",
    created_at := 0, updated_at := 1000 }

/-- Concrete store for the C2 evaluation: the customer's sole ticket is
`resolved`. -/
def storeC2 : Store := { customers := [custC2], tickets := [tickC2], messages := [] }

/-- C2: evaluated 23 hours (82 800 000 ms) after the sole ticket was
resolved, the contact event does reopen that ticket in the store — the
message and a system note are appended to it, its status is forced to
`open`, and no new ticket is created — but the response reports
`action = "created"`, because line 403 of src/server.js computes the
action solely from whether an `open`/`pending` ticket was found,
contradicting both the claim and the code's own reopen branch (which
logs a reopen and tags the message `reopened: true`). -/
theorem C2_reopen_action_bug :
    ((handleContactForm storeC2 (some "Amy") none (some "amy@example.com") none (some "Other")
        (some "Hi") 82801000 99 98 "TIX-9999" true).map
      (fun r => (r.1.action, r.1.ticket_id,
        r.2.tickets.map (fun t => (t.ticket_id, t.status)),
        r.2.messages.map (fun m => m.sender_type)))
      = .ok ("created", "TIX-1001", [("TIX-1001", "open")], ["customer", "system"])) ∧
    ((handleContactForm storeC2 (some "Amy") none (some "amy@example.com") none (some "Other")
        (some "Hi") 91001000 99 98 "TIX-9999" true).map
      (fun r => (r.1.action, r.1.ticket_id,
        r.2.tickets.map (fun t => (t.ticket_id, t.status))))
      = .ok ("created", "TIX-9999", [("TIX-1001", "resolved"), ("TIX-9999", "open")])) := by
  exact ⟨rfl, rfl⟩

/-! ### C5: ticket_count versus owned tickets -/

/-- Two consecutive contact events from the same new customer: the first
creates the customer and a ticket, the second threads onto that ticket. -/
def C5run : Except String Store :=
  (handleContactForm { customers := [], tickets := [], messages := [] }
      (some "Amy") none (some "amy@example.com") none (some "Other") (some "Hello")
      0 1 10 "TIX-1001" true).bind
    (fun r =>
      (handleContactForm r.2 (some "Amy") none (some "amy@example.com") none (some "Other")
          (some "Hello again") 100 2 11 "TIX-1002" true).map (fun r2 => r2.2))

/-- C5, counterexample: after the second (threaded) event the sole
customer's stored `ticket_count` is 2 while the customer owns exactly 1
ticket, so the claimed invariant `ticketCount = number of owned tickets`
fails after a routine operation. -/
theorem C5_ticket_count_counterexample :
    ∃ tc owned : Nat,
      C5run.map (fun st =>
        (st.customers.map (fun c => c.ticket_count),
         (st.tickets.filter (fun t => t.customer_id == 1)).length))
        = .ok ([tc], owned) ∧ tc ≠ owned :=
  ⟨2, 1, by rfl, by decide⟩

/-- C5, amended: resolution increments the customer's stored
`ticket_count` by exactly one on every contact event, whether or not a
ticket is created; on a threaded event no ticket is created and the
owned-ticket count is unchanged, so `ticketCount` counts resolved contact
events, not owned tickets, and exceeds the owned count once a message
threads onto an existing ticket. -/
theorem C5_ticket_count_amended (st : Store) (c : Customer) (t : Ticket) (fn1 e msg : String)
    (ln phone purpose : Option String) (now ncid ntid : Nat) (disp : String)
    (hfn : fn1 ≠ "") (he : e ≠ "") (hmsg : msg ≠ "")
    (huni : st.customers.filter (fun d => d.email == jsToLower e) = [c])
    (hid : st.customers.filter (fun d => d.id == c.id) = [c])
    (hopen : findOpenTicketForCustomer st c.id = some t) :
    ∃ r st' c', handleContactForm st (some fn1) ln (some e) phone purpose (some msg)
        now ncid ntid disp true = .ok (r, st') ∧
      st'.customers.filter (fun d => d.id == c.id) = [c'] ∧
      c'.ticket_count = c.ticket_count + 1 ∧
      st'.tickets.length = st.tickets.length ∧
      (st'.tickets.filter (fun tk => tk.customer_id == c.id)).length
        = (st.tickets.filter (fun tk => tk.customer_id == c.id)).length := by
  have hcond : optTruthy (some fn1) ∧ optTruthy (some e) ∧ optTruthy (some msg) := by
    simp [optTruthy, hfn, he, hmsg]
  simp only [handleContactForm, Option.getD_some]
  rw [if_pos hcond]
  rw [findOrCreate_email_eq st c e phone (jsTrim (fn1 ++ " " ++ ln.getD "")) now ncid true huni]
  dsimp only
  rw [findOpen_update_customer, hopen]
  dsimp only
  refine ⟨_, _, emailUpdate c phone (jsTrim (fn1 ++ " " ++ ln.getD "")) now c,
    rfl, ?_, rfl, ?_, ?_⟩
  · rw [updateTicketById]
    dsimp only [addMessage, updateCustomerById]
    rw [filter_map_guard st.customers _ _ (by
      intro a ha
      simpa [emailUpdate] using ha), hid]
    rfl
  · simp [updateTicketById, addMessage, updateCustomerById]
  · rw [updateTicketById]
    dsimp only [addMessage, updateCustomerById]
    rw [filter_map_invariant st.tickets _ _ (by
      intro a
      by_cases h : (a.id == t.id) = true <;> simp [h])]
    rw [List.length_map]

/-- C5 amended witness: the hypotheses hold at the concrete store of the
C9 witness and the amended theorem applies there. -/
theorem C5_ticket_count_amended_witness :
    (("Amy" : String) ≠ "" ∧ ("amy@example.com" : String) ≠ "" ∧ ("Thanks" : String) ≠ "" ∧
     storeC9.customers.filter (fun d => d.email == jsToLower "amy@example.com") = [custC9] ∧
     storeC9.customers.filter (fun d => d.id == custC9.id) = [custC9] ∧
     findOpenTicketForCustomer storeC9 custC9.id = some tickC9) ∧
    ∃ r st' c', handleContactForm storeC9 (some "Amy") none (some "amy@example.com") none
        (some "Other") (some "Thanks") 60 3 12 "TIX-1003" true = .ok (r, st') ∧
      st'.customers.filter (fun d => d.id == custC9.id) = [c'] ∧
      c'.ticket_count = custC9.ticket_count + 1 ∧
      st'.tickets.length = storeC9.tickets.length ∧
      (st'.tickets.filter (fun tk => tk.customer_id == custC9.id)).length
        = (storeC9.tickets.filter (fun tk => tk.customer_id == custC9.id)).length :=
  ⟨⟨by decide, by decide, by decide, by decide, by decide, by decide⟩,
   C5_ticket_count_amended storeC9 custC9 tickC9 "Amy" "amy@example.com" "Thanks" none none
     (some "Other") 60 3 12 "TIX-1003" (by decide) (by decide) (by decide)
     (by decide) (by decide) (by decide)⟩

/-! ### C4: unique-constraint violation on the create path -/

/-- C4: the spec requires a unique-constraint violation during customer
creation to be handled internally by re-resolving; the code instead does
`if (error) throw error`, so the violation propagates to the caller.
Evaluated at the failing input: an empty store (modelling the racing
event having not yet been seen by the email tier) and an insert that hits
the constraint. -/
theorem C4_conflict_propagates :
    findOrCreateCustomer { customers := [], tickets := [], messages := [] }
        "zq@example.com" none "Zq Xw" 5 7 false
      = .error "duplicate key value violates unique constraint" := by
  rfl

/-! ### C10: priority range -/

/-- C10: `determinePriority` only ever returns `"urgent"`, `"high"` or
`"medium"` — never `"low"` — for every purpose and message. -/
theorem C10_priority_range (purpose message : String) :
    determinePriority purpose message = "urgent" ∨
    determinePriority purpose message = "high" ∨
    determinePriority purpose message = "medium" := by
  simp only [determinePriority]
  by_cases h1 : (jsIncludes (jsToLower message) "urgent" || jsIncludes (jsToLower message) "asap"
      || jsIncludes (jsToLower message) "immediately") = true
  · rw [if_pos h1]
    exact Or.inl rfl
  · rw [if_neg h1]
    by_cases h2 : (purpose == "Returns & Refunds" || jsIncludes (jsToLower message) "refund"
        || jsIncludes (jsToLower message) "cancel") = true
    · rw [if_pos h2]
      exact Or.inr (Or.inl rfl)
    · rw [if_neg h2]
      by_cases h3 : (purpose == "Billing" || purpose == "Shipping & Delivery") = true
      · rw [if_pos h3]
        exact Or.inr (Or.inl rfl)
      · rw [if_neg h3]
        by_cases h4 : (purpose == "Wholesale" || purpose == "Partnership") = true
        · rw [if_pos h4]
          exact Or.inr (Or.inr rfl)
        · rw [if_neg h4]
          exact Or.inr (Or.inr rfl)

/-! ### Customer merge (`POST /api/customers/merge`,
src/server.js lines 638-706) -/

/-- Which of the merge's store calls fail.  The source checks the error
of the ticket-reassignment call and throws (line 655); the errors of the
primary-update, duplicate-clearing and delete calls are ignored, so when
one of those calls fails the merge continues without that call's
effect. -/
structure MergeFailures where
  ticketsFail : Bool
  updatePrimaryFail : Bool
  clearDupsFail : Bool
  deleteFail : Bool
deriving Repr, DecidableEq

/-- The success payload of the merge endpoint (src/server.js lines
695-701), restricted to the fields with decision content. -/
structure MergeResponse where
  primary_id : Nat
  secondary_id : Nat
  ticketsMoved : Nat
deriving Repr, DecidableEq

/-- JavaScript `a || b` on nullable numbers: `null` and `0` are falsy. -/
def jsOrNat (a b : Option Nat) : Option Nat :=
  match a with
  | some n => if n == 0 then b else some n
  | none => b

/-- The `updates` object of the merge (src/server.js lines 657-680):
tag union, alternate-email union plus the secondary's primary email minus
the primary's own email, phone and Shopify-id fallback, max of order
count and lifetime value, summed ticket counts, cleared duplicate flag. -/
def mergePrimaryUpdate (primary secondary : Customer) (now : Nat) : Customer → Customer :=
  fun d =>
    { d with
      phone := if optTruthy primary.phone then primary.phone else secondary.phone
      tags := jsSetDedup (primary.tags ++ secondary.tags)
      alt_emails := some ((jsSetDedup ((primary.alt_emails.getD [])
          ++ (secondary.alt_emails.getD []) ++ [secondary.email])).filter
        (fun e => e != primary.email))
      ticket_count := primary.ticket_count + secondary.ticket_count
      shopify_customer_id := jsOrNat primary.shopify_customer_id secondary.shopify_customer_id
      shopify_order_count := some (max (primary.shopify_order_count.getD 0)
        (secondary.shopify_order_count.getD 0))
      shopify_ltv := some (max (primary.shopify_ltv.getD 0) (secondary.shopify_ltv.getD 0))
      possible_duplicate_of := none
      updated_at := now }

/-- `POST /api/customers/merge` (src/server.js lines 638-706): reject a
self-merge, fetch both rows, move the secondary's tickets, write the
reconciled fields onto the primary, clear `possible_duplicate_of`
references to the secondary, delete the secondary, and report success
with `ticketsMoved = secondary.ticket_count`.  No transaction wraps the
steps; a failed later step (its flag in `mf`) merely skips that step's
effect. -/
def mergeCustomers (st : Store) (primary_id secondary_id : Nat) (now : Nat)
    (mf : MergeFailures) : Except String (MergeResponse × Store) :=
  if primary_id == secondary_id then .error "Cannot merge customer with themselves"
  else
    match singleRow (st.customers.filter (fun c => c.id == primary_id)),
          singleRow (st.customers.filter (fun c => c.id == secondary_id)) with
    | some primary, some secondary =>
      if mf.ticketsFail then .error "Failed to merge customers"
      else
        let st1 := { st with tickets := st.tickets.map (fun t =>
          if t.customer_id == secondary_id then { t with customer_id := primary_id } else t) }
        let st2 := if mf.updatePrimaryFail then st1
          else updateCustomerById st1 primary_id (mergePrimaryUpdate primary secondary now)
        let st3 := if mf.clearDupsFail then st2
          else { st2 with customers := st2.customers.map (fun c =>
            if c.possible_duplicate_of == some secondary_id
            then { c with possible_duplicate_of := none } else c) }
        let st4 := if mf.deleteFail then st3
          else { st3 with customers := st3.customers.filter (fun c => c.id != secondary_id) }
        .ok ({ primary_id := primary_id, secondary_id := secondary_id,
               ticketsMoved := secondary.ticket_count }, st4)
    | _, _ => .error "One or both customers not found"

/-! ### C3: merge atomicity -/

/-- Concrete primary for the C3 evaluation. -/
def custP3 : Customer :=
  { id := 1, name := "Pat Prime", email := "pat@example.com", phone := none,
    alt_emails := none, tags := [], ticket_count := 1, possible_duplicate_of := none,
    shopify_customer_id := none, shopify_order_count := none, shopify_ltv := none,
    updated_at := 0 }

/-- Concrete secondary for the C3 evaluation. -/
def custS3 : Customer :=
  { id := 2, name := "Pat P", email := "patp@example.com", phone := none,
    alt_emails := none, tags := [], ticket_count := 1, possible_duplicate_of := none,
    shopify_customer_id := none, shopify_order_count := none, shopify_ltv := none,
    updated_at := 0 }

/-- Concrete store for the C3 evaluation: the secondary owns one
ticket. -/
def storeC3 : Store :=
  { customers := [custP3, custS3]
    tickets := [{ id := 10, ticket_id := "TIX-2001", customer_id := 2,
                  subject := "s", status := "open", priority := "medium",
                  channel := "site_form", ai_tags := none, ai_summary := "",
                  purpose := "Other", created_at := 0, updated_at := 0 }]
    messages := [] }

/-- C3: evaluated with the final delete call failing, the merge still
reports success, the secondary's ticket has been reassigned to the
primary, and the secondary record is still present — earlier steps'
effects persist after a failed step, so the merge is not atomic as the
claim requires (the source wraps no transaction around the steps and
ignores the errors of steps 4-6). -/
theorem C3_merge_not_atomic :
    (mergeCustomers storeC3 1 2 5
        { ticketsFail := false, updatePrimaryFail := false,
          clearDupsFail := false, deleteFail := true }).map
      (fun r => (r.1.ticketsMoved,
        r.2.tickets.map (fun t => t.customer_id),
        r.2.customers.map (fun c => c.id)))
      = .ok (1, [1], [1, 2]) := by
  rfl

/-! ### C6: the effects of a successful merge -/

/-- What C6 claims a successful merge of `s` (id `sid`) into `p`
(id `pid`) does to the store. -/
def mergeSpecClaim (st : Store) (p s : Customer) (pid sid : Nat) (st' : Store) : Prop :=
  st'.tickets = st.tickets.map (fun t =>
    if t.customer_id == sid then { t with customer_id := pid } else t) ∧
  (∀ c ∈ st'.customers, c.id ≠ sid) ∧
  (∀ c ∈ st'.customers, c.possible_duplicate_of ≠ some sid) ∧
  ∃ p', st'.customers.filter (fun c => c.id == pid) = [p'] ∧
    (∀ x, x ∈ p'.tags ↔ (x ∈ p.tags ∨ x ∈ s.tags)) ∧
    (∀ e, e ∈ p'.alt_emails.getD [] ↔
      ((e ∈ p.alt_emails.getD [] ∨ e ∈ s.alt_emails.getD [] ∨ e = s.email) ∧ e ≠ p.email)) ∧
    p'.phone = (if optTruthy p.phone then p.phone else s.phone) ∧
    p'.shopify_order_count
      = some (max (p.shopify_order_count.getD 0) (s.shopify_order_count.getD 0)) ∧
    p'.shopify_ltv = some (max (p.shopify_ltv.getD 0) (s.shopify_ltv.getD 0)) ∧
    p'.ticket_count = p.ticket_count + s.ticket_count

/-- C6: merging distinct existing customers (each the unique row with its
id) with all store calls succeeding reassigns every ticket owned by the
secondary to the primary, unions tags, sets the alternate emails to the
union of both alternate-email sets plus the secondary's primary email
minus the primary's own primary email, takes the primary's phone falling
back to the secondary's, the max of order count and lifetime value, the
sum of ticket counts, deletes the secondary, and leaves no
`possibleDuplicateOf` reference to the secondary in the store. -/
theorem C6_merge_effects (st : Store) (p s : Customer) (pid sid now : Nat)
    (hp : st.customers.filter (fun c => c.id == pid) = [p])
    (hs : st.customers.filter (fun c => c.id == sid) = [s])
    (hne : pid ≠ sid) :
    ∃ r st', mergeCustomers st pid sid now
        { ticketsFail := false, updatePrimaryFail := false,
          clearDupsFail := false, deleteFail := false } = .ok (r, st') ∧
      r.ticketsMoved = s.ticket_count ∧
      mergeSpecClaim st p s pid sid st' := by
  have hbe : (pid == sid) = false := by
    simp [hne]
  simp only [mergeCustomers, hbe, Bool.false_eq_true, if_false]
  rw [hp, hs]
  dsimp only [singleRow]
  refine ⟨_, _, rfl, rfl, rfl, ?_, ?_, ?_⟩
  · -- no remaining customer has the secondary's id
    intro c hc
    have := List.of_mem_filter hc
    simpa using this
  · -- no remaining possible_duplicate_of points at the secondary
    intro c hc
    have hc3 := List.mem_of_mem_filter hc
    dsimp only [updateCustomerById] at hc3
    rcases List.mem_map.mp hc3 with ⟨a, _, ha⟩
    by_cases h : (a.possible_duplicate_of == some sid) = true
    · rw [if_pos h] at ha
      rw [← ha]
      simp
    · rw [if_neg h] at ha
      rw [← ha]
      simpa using h
  · -- the merged primary record
    have hstep1 : (st.customers.map (fun c =>
          if c.id == pid then mergePrimaryUpdate p s now c else c)).filter
        (fun c => c.id == pid) = [mergePrimaryUpdate p s now p] := by
      rw [filter_map_guard st.customers _ _ (by
        intro a ha
        simpa [mergePrimaryUpdate] using ha), hp]
      rfl
    have hstep2 : ((st.customers.map (fun c =>
          if c.id == pid then mergePrimaryUpdate p s now c else c)).map (fun c =>
            if c.possible_duplicate_of == some sid
            then { c with possible_duplicate_of := none } else c)).filter
        (fun c => c.id == pid) = [mergePrimaryUpdate p s now p] := by
      rw [filter_map_invariant _ (fun c : Customer => c.id == pid) _ (by
        intro a
        by_cases h : (a.possible_duplicate_of == some sid) = true <;> simp [h]), hstep1]
      simp only [List.map_cons, List.map_nil]
      rw [if_neg (by simp [mergePrimaryUpdate])]
    refine ⟨mergePrimaryUpdate p s now p, ?_, ?_, ?_, rfl, rfl, rfl, rfl⟩
    · dsimp only [updateCustomerById]
      rw [filter_filter_of_imp _ _ _ (by
        intro a ha
        have haid : a.id = pid := by simpa using ha
        simp [haid, hne])]
      exact hstep2
    · intro x
      dsimp only [mergePrimaryUpdate]
      rw [mem_jsSetDedup]
      exact List.mem_append
    · intro e
      dsimp only [mergePrimaryUpdate]
      simp only [Option.getD_some, List.mem_filter, mem_jsSetDedup, List.mem_append,
        List.mem_singleton, bne_iff_ne, ne_eq]
      tauto

/-! ### C6 witness data -/

/-- Concrete primary for the C6 witness (has an order count, a lifetime
value, tags, an alternate email and a pending duplicate flag). -/
def custP6 : Customer :=
  { id := 1, name := "Pat Prime", email := "pat@example.com", phone := none,
    alt_emails := some ["old@example.com"], tags := ["VIP"], ticket_count := 2,
    possible_duplicate_of := some 2, shopify_customer_id := none,
    shopify_order_count := some 3, shopify_ltv := some 100, updated_at := 0 }

/-- Concrete secondary for the C6 witness. -/
def custS6 : Customer :=
  { id := 2, name := "Pat P", email := "patp@example.com", phone := some "555",
    alt_emails := some ["s2@example.com"], tags := ["Wholesale lead"], ticket_count := 1,
    possible_duplicate_of := none, shopify_customer_id := some 7,
    shopify_order_count := some 5, shopify_ltv := some 50, updated_at := 0 }

/-- A third customer flagged as a possible duplicate of the secondary,
to exercise the dangling-reference cleanup. -/
def custD6 : Customer :=
  { id := 3, name := "Pat Q", email := "patq@example.com", phone := none,
    alt_emails := none, tags := [], ticket_count := 1,
    possible_duplicate_of := some 2, shopify_customer_id := none,
    shopify_order_count := none, shopify_ltv := none, updated_at := 0 }

/-- Concrete store for the C6 witness: the secondary owns one ticket. -/
def storeC6 : Store :=
  { customers := [custP6, custS6, custD6]
    tickets := [{ id := 20, ticket_id := "TIX-3001", customer_id := 2,
                  subject := "s", status := "open", priority := "medium",
                  channel := "site_form", ai_tags := none, ai_summary := "",
                  purpose := "Other", created_at := 0, updated_at := 0 }]
    messages := [] }

/-- C6 witness: the hypotheses hold at a concrete three-customer store
and the theorem applies there. -/
theorem C6_merge_effects_witness :
    (storeC6.customers.filter (fun c => c.id == 1) = [custP6] ∧
     storeC6.customers.filter (fun c => c.id == 2) = [custS6] ∧
     (1 : Nat) ≠ 2) ∧
    ∃ r st', mergeCustomers storeC6 1 2 9
        { ticketsFail := false, updatePrimaryFail := false,
          clearDupsFail := false, deleteFail := false } = .ok (r, st') ∧
      r.ticketsMoved = custS6.ticket_count ∧
      mergeSpecClaim storeC6 custP6 custS6 1 2 st' :=
  ⟨⟨by decide, by decide, by decide⟩,
   C6_merge_effects storeC6 custP6 custS6 1 2 9 (by decide) (by decide) (by decide)⟩

end TipsyAF
